import Mathlib

set_option maxRecDepth 100000

/-!
Shallow embedding of the EpochZone timezone service (`src/service.rs`,
`src/models.rs`). The service delegates instant arithmetic to the `chrono`
crate and zone data to `chrono-tz`; the parts of those libraries that the
embedded code paths exercise are modelled here from their sources: the
representable-timestamp range of `DateTime::from_timestamp`, the strftime
item parser used by `NaiveDateTime::parse_from_str`, resolution of a local
datetime against a zone's transition table, and the `%z`/`%Z` formatting
that `build_convert_info` consumes.
-/

namespace EpochZone

/-- Rust `i64::MAX`, the overflow bound of chrono's digit accumulator. -/
def i64Max : Int := 9223372036854775807

/-- Rust `i32::MAX`, the bound enforced by `Parsed::set_year`. -/
def i32Max : Int := 2147483647

/-- The error kinds of chrono's `ParseError` reachable from the embedded paths. -/
inductive PErr where
  | tooShort
  | invalid
  | tooLong
  | outOfRange
  | impossible
  | notEnough
deriving Repr, DecidableEq

/-- Display strings of chrono `ParseError` (chrono `format/mod.rs`). -/
def pErrMsg : PErr → String
  | .tooShort => "premature end of input"
  | .invalid => "input contains invalid characters"
  | .tooLong => "trailing input"
  | .outOfRange => "input is out of range"
  | .impossible => "no possible date and time matching input"
  | .notEnough => "not enough information for parsing"

/-- Fail with `e` when `p` holds (chrono's range guards). -/
def checkE (p : Prop) [Decidable p] (e : PErr) : Except PErr Unit :=
  if p then .error e else .ok ()

/-- Digit loop of chrono `scan::number`: consume up to `fuel` more ASCII digits
into an i64 accumulator with overflow check, `i` digits already consumed;
stopping at a non-digit before `minW` digits is `INVALID`. -/
def scanNumGo (minW : Nat) : List Char → Nat → Nat → Int → Except PErr (Int × List Char)
  | s, 0, _, n => .ok (n, s)
  | [], _, _, n => .ok (n, [])
  | c :: rest, fuel + 1, i, n =>
    if c.isDigit then
      let n2 := n * 10 + ((c.toNat - 48 : Nat) : Int)
      if n2 > i64Max then .error .outOfRange
      else scanNumGo minW rest fuel (i + 1) n2
    else if i < minW then .error .invalid
    else .ok (n, c :: rest)

/-- chrono `scan::number(s, min, max)`. -/
def scanNumber (s : List Char) (minW maxW : Nat) : Except PErr (Int × List Char) :=
  if s.length < minW then .error .tooShort
  else scanNumGo minW s maxW 0 0

/-- Rust `char::is_whitespace`: the Unicode White_Space codepoints. -/
def rustIsWhitespace (c : Char) : Bool :=
  c.toNat = 0x09 || c.toNat = 0x0A || c.toNat = 0x0B || c.toNat = 0x0C || c.toNat = 0x0D
    || c.toNat = 0x20 || c.toNat = 0x85 || c.toNat = 0xA0 || c.toNat = 0x1680
    || (0x2000 ≤ c.toNat && c.toNat ≤ 0x200A) || c.toNat = 0x2028 || c.toNat = 0x2029
    || c.toNat = 0x202F || c.toNat = 0x205F || c.toNat = 0x3000

/-- `str::trim_start` as used before every numeric item. -/
def trimStartCs (s : List Char) : List Char := s.dropWhile rustIsWhitespace

/-- chrono numeric item for an unsigned two-digit field (`%m %d %H %M %S`):
leading whitespace skipped, then 1 to 2 digits consumed. -/
def parseNum2 (s : List Char) : Except PErr (Int × List Char) :=
  scanNumber (trimStartCs s) 1 2

/-- chrono numeric item for `%Y`: leading whitespace skipped; an explicit sign
admits an unlimited digit run, otherwise at most 4 digits are consumed. -/
def parseYearNum (s0 : List Char) : Except PErr (Int × List Char) :=
  let s := trimStartCs s0
  match s with
  | '-' :: rest =>
    match scanNumber rest 1 rest.length with
    | .ok (v, r) => .ok (-v, r)
    | .error e => .error e
  | '+' :: rest => scanNumber rest 1 rest.length
  | _ => scanNumber s 1 4

/-- chrono literal item for a single character. -/
def parseLitC (c : Char) : List Char → Except PErr (List Char)
  | [] => .error .tooShort
  | x :: rest => if x = c then .ok rest else .error .invalid

/-- The fields collected by parsing; `second` is absent for `%Y-%m-%dT%H:%M`. -/
structure ParsedDT where
  year : Int
  month : Int
  day : Int
  hour : Int
  minute : Int
  second : Option Int
deriving Repr, DecidableEq

/-- Item run shared by both accepted formats (`%Y-%m-%dT%H:%M`), mirroring
chrono's per-item behaviour: the i32 guard of `Parsed::set_year` and the eager
0..=23 guard of `Parsed::set_hour`. -/
def parseCommon (s : List Char) : Except PErr ((Int × Int × Int × Int × Int) × List Char) := do
  let (y, s) ← parseYearNum s
  let _ ← checkE (y > i32Max ∨ y < -i32Max - 1) PErr.outOfRange
  let s ← parseLitC '-' s
  let (mo, s) ← parseNum2 s
  let s ← parseLitC '-' s
  let (d, s) ← parseNum2 s
  let s ← parseLitC 'T' s
  let (h, s) ← parseNum2 s
  let _ ← checkE (h > 23) PErr.outOfRange
  let s ← parseLitC ':' s
  let (mi, s) ← parseNum2 s
  .ok ((y, mo, d, h, mi), s)

/-- chrono item run for `"%Y-%m-%dT%H:%M:%S"` plus the trailing-input check. -/
def parseItems1 (s : List Char) : Except PErr ParsedDT := do
  let ((y, mo, d, h, mi), s) ← parseCommon s
  let s ← parseLitC ':' s
  let (sec, s) ← parseNum2 s
  if s.isEmpty then .ok ⟨y, mo, d, h, mi, some sec⟩ else .error .tooLong

/-- chrono item run for `"%Y-%m-%dT%H:%M"` plus the trailing-input check. -/
def parseItems2 (s : List Char) : Except PErr ParsedDT := do
  let ((y, mo, d, h, mi), s) ← parseCommon s
  if s.isEmpty then .ok ⟨y, mo, d, h, mi, none⟩ else .error .tooLong

/-- chrono `NaiveDate` year range (`MIN_YEAR`, one year inside the packed
representation's capacity). -/
def minYear : Int := -262143

/-- chrono `NaiveDate` year range (`MAX_YEAR`). -/
def maxYear : Int := 262142

/-- Proleptic-Gregorian leap-year rule (chrono `YearFlags::from_year`). -/
def isLeapYear (y : Int) : Bool := (y % 4 == 0 && y % 100 != 0) || y % 400 == 0

/-- Day count of month `m` of year `y`. -/
def daysInMonth (y m : Int) : Int :=
  if m = 2 then (if isLeapYear y then 29 else 28)
  else if m = 4 ∨ m = 6 ∨ m = 9 ∨ m = 11 then 30
  else 31

/-- Cumulative days before month `m` in a non-leap year. -/
def monthOffset (m : Int) : Int :=
  if m = 1 then 0 else if m = 2 then 31 else if m = 3 then 59 else if m = 4 then 90
  else if m = 5 then 120 else if m = 6 then 151 else if m = 7 then 181
  else if m = 8 then 212 else if m = 9 then 243 else if m = 10 then 273
  else if m = 11 then 304 else 334

/-- Days from 1970-01-01 to the proleptic-Gregorian date `y-m-d`. -/
def daysFromCivil (y m d : Int) : Int :=
  365 * (y - 1) + Int.fdiv (y - 1) 4 - Int.fdiv (y - 1) 100 + Int.fdiv (y - 1) 400
    + monthOffset m + (if 2 < m ∧ isLeapYear y then 1 else 0) + d - 719163

/-- `Parsed::to_naive_datetime_with_offset(0)`: validate the collected fields
(`NaiveDate::from_ymd_opt`, `NaiveTime::from_hms_nano_opt`) and produce the
naive datetime as seconds since 1970-01-01T00:00:00. A parsed second of 60 is
chrono's leap-second representation and shares the epoch second of 59. -/
def toNaiveDT (p : ParsedDT) : Except PErr Int := do
  let _ ← checkE (p.year < minYear ∨ p.year > maxYear ∨ p.month < 1 ∨ p.month > 12
      ∨ p.day < 1 ∨ p.day > daysInMonth p.year p.month) PErr.outOfRange
  let sec0 := (p.second).getD 0
  let sec := if sec0 = 60 then 59 else sec0
  let _ ← checkE (p.minute > 59 ∨ sec > 59) PErr.outOfRange
  .ok (daysFromCivil p.year p.month p.day * 86400 + p.hour * 3600 + p.minute * 60 + sec)

/-- `NaiveDateTime::parse_from_str(s, "%Y-%m-%dT%H:%M:%S")`. -/
def naiveParseSec (s : String) : Except PErr Int :=
  (parseItems1 s.data).bind toNaiveDT

/-- `NaiveDateTime::parse_from_str(s, "%Y-%m-%dT%H:%M")`. -/
def naiveParseMin (s : String) : Except PErr Int :=
  (parseItems2 s.data).bind toNaiveDT

/-- The `parse_from_str(.., "%Y-%m-%dT%H:%M:%S").or_else(.. "%Y-%m-%dT%H:%M")`
chain of `convert_timezone`; when both fail, the reported error is the second
attempt's. -/
def parseDatetimeChain (s : String) : Except PErr Int :=
  match naiveParseSec s with
  | .ok n => .ok n
  | .error _ => naiveParseMin s


/-- The zone-name catalog: the identifiers accepted by chrono-tz's `FromStr`
and enumerated by `TZ_VARIANTS`, transcribed from the IANA tz database. -/
def tzCatalog : List String := [
  "Africa/Abidjan", "Africa/Accra", "Africa/Addis_Ababa", "Africa/Algiers",
  "Africa/Asmara", "Africa/Asmera", "Africa/Bamako", "Africa/Bangui",
  "Africa/Banjul", "Africa/Bissau", "Africa/Blantyre", "Africa/Brazzaville",
  "Africa/Bujumbura", "Africa/Cairo", "Africa/Casablanca", "Africa/Ceuta",
  "Africa/Conakry", "Africa/Dakar", "Africa/Dar_es_Salaam", "Africa/Djibouti",
  "Africa/Douala", "Africa/El_Aaiun", "Africa/Freetown", "Africa/Gaborone",
  "Africa/Harare", "Africa/Johannesburg", "Africa/Juba", "Africa/Kampala",
  "Africa/Khartoum", "Africa/Kigali", "Africa/Kinshasa", "Africa/Lagos",
  "Africa/Libreville", "Africa/Lome", "Africa/Luanda", "Africa/Lubumbashi",
  "Africa/Lusaka", "Africa/Malabo", "Africa/Maputo", "Africa/Maseru",
  "Africa/Mbabane", "Africa/Mogadishu", "Africa/Monrovia", "Africa/Nairobi",
  "Africa/Ndjamena", "Africa/Niamey", "Africa/Nouakchott", "Africa/Ouagadougou",
  "Africa/Porto-Novo", "Africa/Sao_Tome", "Africa/Timbuktu", "Africa/Tripoli",
  "Africa/Tunis", "Africa/Windhoek", "America/Adak", "America/Anchorage",
  "America/Anguilla", "America/Antigua", "America/Araguaina", "America/Argentina/Buenos_Aires",
  "America/Argentina/Catamarca", "America/Argentina/ComodRivadavia", "America/Argentina/Cordoba", "America/Argentina/Jujuy",
  "America/Argentina/La_Rioja", "America/Argentina/Mendoza", "America/Argentina/Rio_Gallegos", "America/Argentina/Salta",
  "America/Argentina/San_Juan", "America/Argentina/San_Luis", "America/Argentina/Tucuman", "America/Argentina/Ushuaia",
  "America/Aruba", "America/Asuncion", "America/Atikokan", "America/Atka",
  "America/Bahia", "America/Bahia_Banderas", "America/Barbados", "America/Belem",
  "America/Belize", "America/Blanc-Sablon", "America/Boa_Vista", "America/Bogota",
  "America/Boise", "America/Buenos_Aires", "America/Cambridge_Bay", "America/Campo_Grande",
  "America/Cancun", "America/Caracas", "America/Catamarca", "America/Cayenne",
  "America/Cayman", "America/Chicago", "America/Chihuahua", "America/Ciudad_Juarez",
  "America/Coral_Harbour", "America/Cordoba", "America/Costa_Rica", "America/Creston",
  "America/Cuiaba", "America/Curacao", "America/Danmarkshavn", "America/Dawson",
  "America/Dawson_Creek", "America/Denver", "America/Detroit", "America/Dominica",
  "America/Edmonton", "America/Eirunepe", "America/El_Salvador", "America/Ensenada",
  "America/Fort_Nelson", "America/Fort_Wayne", "America/Fortaleza", "America/Glace_Bay",
  "America/Godthab", "America/Goose_Bay", "America/Grand_Turk", "America/Grenada",
  "America/Guadeloupe", "America/Guatemala", "America/Guayaquil", "America/Guyana",
  "America/Halifax", "America/Havana", "America/Hermosillo", "America/Indiana/Indianapolis",
  "America/Indiana/Knox", "America/Indiana/Marengo", "America/Indiana/Petersburg", "America/Indiana/Tell_City",
  "America/Indiana/Vevay", "America/Indiana/Vincennes", "America/Indiana/Winamac", "America/Indianapolis",
  "America/Inuvik", "America/Iqaluit", "America/Jamaica", "America/Jujuy",
  "America/Juneau", "America/Kentucky/Louisville", "America/Kentucky/Monticello", "America/Knox_IN",
  "America/Kralendijk", "America/La_Paz", "America/Lima", "America/Los_Angeles",
  "America/Louisville", "America/Lower_Princes", "America/Maceio", "America/Managua",
  "America/Manaus", "America/Marigot", "America/Martinique", "America/Matamoros",
  "America/Mazatlan", "America/Mendoza", "America/Menominee", "America/Merida",
  "America/Metlakatla", "America/Mexico_City", "America/Miquelon", "America/Moncton",
  "America/Monterrey", "America/Montevideo", "America/Montreal", "America/Montserrat",
  "America/Nassau", "America/New_York", "America/Nipigon", "America/Nome",
  "America/Noronha", "America/North_Dakota/Beulah", "America/North_Dakota/Center", "America/North_Dakota/New_Salem",
  "America/Nuuk", "America/Ojinaga", "America/Panama", "America/Pangnirtung",
  "America/Paramaribo", "America/Phoenix", "America/Port-au-Prince", "America/Port_of_Spain",
  "America/Porto_Acre", "America/Porto_Velho", "America/Puerto_Rico", "America/Punta_Arenas",
  "America/Rainy_River", "America/Rankin_Inlet", "America/Recife", "America/Regina",
  "America/Resolute", "America/Rio_Branco", "America/Rosario", "America/Santa_Isabel",
  "America/Santarem", "America/Santiago", "America/Santo_Domingo", "America/Sao_Paulo",
  "America/Scoresbysund", "America/Shiprock", "America/Sitka", "America/St_Barthelemy",
  "America/St_Johns", "America/St_Kitts", "America/St_Lucia", "America/St_Thomas",
  "America/St_Vincent", "America/Swift_Current", "America/Tegucigalpa", "America/Thule",
  "America/Thunder_Bay", "America/Tijuana", "America/Toronto", "America/Tortola",
  "America/Vancouver", "America/Virgin", "America/Whitehorse", "America/Winnipeg",
  "America/Yakutat", "America/Yellowknife", "Antarctica/Casey", "Antarctica/Davis",
  "Antarctica/DumontDUrville", "Antarctica/Macquarie", "Antarctica/Mawson", "Antarctica/McMurdo",
  "Antarctica/Palmer", "Antarctica/Rothera", "Antarctica/South_Pole", "Antarctica/Syowa",
  "Antarctica/Troll", "Antarctica/Vostok", "Arctic/Longyearbyen", "Asia/Aden",
  "Asia/Almaty", "Asia/Amman", "Asia/Anadyr", "Asia/Aqtau",
  "Asia/Aqtobe", "Asia/Ashgabat", "Asia/Ashkhabad", "Asia/Atyrau",
  "Asia/Baghdad", "Asia/Bahrain", "Asia/Baku", "Asia/Bangkok",
  "Asia/Barnaul", "Asia/Beirut", "Asia/Bishkek", "Asia/Brunei",
  "Asia/Calcutta", "Asia/Chita", "Asia/Choibalsan", "Asia/Chongqing",
  "Asia/Chungking", "Asia/Colombo", "Asia/Dacca", "Asia/Damascus",
  "Asia/Dhaka", "Asia/Dili", "Asia/Dubai", "Asia/Dushanbe",
  "Asia/Famagusta", "Asia/Gaza", "Asia/Harbin", "Asia/Hebron",
  "Asia/Ho_Chi_Minh", "Asia/Hong_Kong", "Asia/Hovd", "Asia/Irkutsk",
  "Asia/Istanbul", "Asia/Jakarta", "Asia/Jayapura", "Asia/Jerusalem",
  "Asia/Kabul", "Asia/Kamchatka", "Asia/Karachi", "Asia/Kashgar",
  "Asia/Kathmandu", "Asia/Katmandu", "Asia/Khandyga", "Asia/Kolkata",
  "Asia/Krasnoyarsk", "Asia/Kuala_Lumpur", "Asia/Kuching", "Asia/Kuwait",
  "Asia/Macao", "Asia/Macau", "Asia/Magadan", "Asia/Makassar",
  "Asia/Manila", "Asia/Muscat", "Asia/Nicosia", "Asia/Novokuznetsk",
  "Asia/Novosibirsk", "Asia/Omsk", "Asia/Oral", "Asia/Phnom_Penh",
  "Asia/Pontianak", "Asia/Pyongyang", "Asia/Qatar", "Asia/Qostanay",
  "Asia/Qyzylorda", "Asia/Rangoon", "Asia/Riyadh", "Asia/Saigon",
  "Asia/Sakhalin", "Asia/Samarkand", "Asia/Seoul", "Asia/Shanghai",
  "Asia/Singapore", "Asia/Srednekolymsk", "Asia/Taipei", "Asia/Tashkent",
  "Asia/Tbilisi", "Asia/Tehran", "Asia/Tel_Aviv", "Asia/Thimbu",
  "Asia/Thimphu", "Asia/Tokyo", "Asia/Tomsk", "Asia/Ujung_Pandang",
  "Asia/Ulaanbaatar", "Asia/Ulan_Bator", "Asia/Urumqi", "Asia/Ust-Nera",
  "Asia/Vientiane", "Asia/Vladivostok", "Asia/Yakutsk", "Asia/Yangon",
  "Asia/Yekaterinburg", "Asia/Yerevan", "Atlantic/Azores", "Atlantic/Bermuda",
  "Atlantic/Canary", "Atlantic/Cape_Verde", "Atlantic/Faeroe", "Atlantic/Faroe",
  "Atlantic/Jan_Mayen", "Atlantic/Madeira", "Atlantic/Reykjavik", "Atlantic/South_Georgia",
  "Atlantic/St_Helena", "Atlantic/Stanley", "Australia/ACT", "Australia/Adelaide",
  "Australia/Brisbane", "Australia/Broken_Hill", "Australia/Canberra", "Australia/Currie",
  "Australia/Darwin", "Australia/Eucla", "Australia/Hobart", "Australia/LHI",
  "Australia/Lindeman", "Australia/Lord_Howe", "Australia/Melbourne", "Australia/NSW",
  "Australia/North", "Australia/Perth", "Australia/Queensland", "Australia/South",
  "Australia/Sydney", "Australia/Tasmania", "Australia/Victoria", "Australia/West",
  "Australia/Yancowinna", "Brazil/Acre", "Brazil/DeNoronha", "Brazil/East",
  "Brazil/West", "CET", "CST6CDT", "Canada/Atlantic",
  "Canada/Central", "Canada/Eastern", "Canada/Mountain", "Canada/Newfoundland",
  "Canada/Pacific", "Canada/Saskatchewan", "Canada/Yukon", "Chile/Continental",
  "Chile/EasterIsland", "Cuba", "EET", "EST",
  "EST5EDT", "Egypt", "Eire", "Etc/GMT",
  "Etc/GMT+0", "Etc/GMT+1", "Etc/GMT+10", "Etc/GMT+11",
  "Etc/GMT+12", "Etc/GMT+2", "Etc/GMT+3", "Etc/GMT+4",
  "Etc/GMT+5", "Etc/GMT+6", "Etc/GMT+7", "Etc/GMT+8",
  "Etc/GMT+9", "Etc/GMT-0", "Etc/GMT-1", "Etc/GMT-10",
  "Etc/GMT-11", "Etc/GMT-12", "Etc/GMT-13", "Etc/GMT-14",
  "Etc/GMT-2", "Etc/GMT-3", "Etc/GMT-4", "Etc/GMT-5",
  "Etc/GMT-6", "Etc/GMT-7", "Etc/GMT-8", "Etc/GMT-9",
  "Etc/GMT0", "Etc/Greenwich", "Etc/UCT", "Etc/UTC",
  "Etc/Universal", "Etc/Zulu", "Europe/Amsterdam", "Europe/Andorra",
  "Europe/Astrakhan", "Europe/Athens", "Europe/Belfast", "Europe/Belgrade",
  "Europe/Berlin", "Europe/Bratislava", "Europe/Brussels", "Europe/Bucharest",
  "Europe/Budapest", "Europe/Busingen", "Europe/Chisinau", "Europe/Copenhagen",
  "Europe/Dublin", "Europe/Gibraltar", "Europe/Guernsey", "Europe/Helsinki",
  "Europe/Isle_of_Man", "Europe/Istanbul", "Europe/Jersey", "Europe/Kaliningrad",
  "Europe/Kiev", "Europe/Kirov", "Europe/Kyiv", "Europe/Lisbon",
  "Europe/Ljubljana", "Europe/London", "Europe/Luxembourg", "Europe/Madrid",
  "Europe/Malta", "Europe/Mariehamn", "Europe/Minsk", "Europe/Monaco",
  "Europe/Moscow", "Europe/Nicosia", "Europe/Oslo", "Europe/Paris",
  "Europe/Podgorica", "Europe/Prague", "Europe/Riga", "Europe/Rome",
  "Europe/Samara", "Europe/San_Marino", "Europe/Sarajevo", "Europe/Saratov",
  "Europe/Simferopol", "Europe/Skopje", "Europe/Sofia", "Europe/Stockholm",
  "Europe/Tallinn", "Europe/Tirane", "Europe/Tiraspol", "Europe/Ulyanovsk",
  "Europe/Uzhgorod", "Europe/Vaduz", "Europe/Vatican", "Europe/Vienna",
  "Europe/Vilnius", "Europe/Volgograd", "Europe/Warsaw", "Europe/Zagreb",
  "Europe/Zaporozhye", "Europe/Zurich", "GB", "GB-Eire",
  "GMT", "GMT+0", "GMT-0", "GMT0",
  "Greenwich", "HST", "Hongkong", "Iceland",
  "Indian/Antananarivo", "Indian/Chagos", "Indian/Christmas", "Indian/Cocos",
  "Indian/Comoro", "Indian/Kerguelen", "Indian/Mahe", "Indian/Maldives",
  "Indian/Mauritius", "Indian/Mayotte", "Indian/Reunion", "Iran",
  "Israel", "Jamaica", "Japan", "Kwajalein",
  "Libya", "MET", "MST", "MST7MDT",
  "Mexico/BajaNorte", "Mexico/BajaSur", "Mexico/General", "NZ",
  "NZ-CHAT", "Navajo", "PRC", "PST8PDT",
  "Pacific/Apia", "Pacific/Auckland", "Pacific/Bougainville", "Pacific/Chatham",
  "Pacific/Chuuk", "Pacific/Easter", "Pacific/Efate", "Pacific/Enderbury",
  "Pacific/Fakaofo", "Pacific/Fiji", "Pacific/Funafuti", "Pacific/Galapagos",
  "Pacific/Gambier", "Pacific/Guadalcanal", "Pacific/Guam", "Pacific/Honolulu",
  "Pacific/Johnston", "Pacific/Kanton", "Pacific/Kiritimati", "Pacific/Kosrae",
  "Pacific/Kwajalein", "Pacific/Majuro", "Pacific/Marquesas", "Pacific/Midway",
  "Pacific/Nauru", "Pacific/Niue", "Pacific/Norfolk", "Pacific/Noumea",
  "Pacific/Pago_Pago", "Pacific/Palau", "Pacific/Pitcairn", "Pacific/Pohnpei",
  "Pacific/Ponape", "Pacific/Port_Moresby", "Pacific/Rarotonga", "Pacific/Saipan",
  "Pacific/Samoa", "Pacific/Tahiti", "Pacific/Tarawa", "Pacific/Tongatapu",
  "Pacific/Truk", "Pacific/Wake", "Pacific/Wallis", "Pacific/Yap",
  "Poland", "Portugal", "ROC", "ROK",
  "Singapore", "Turkey", "UCT", "US/Alaska",
  "US/Aleutian", "US/Arizona", "US/Central", "US/East-Indiana",
  "US/Eastern", "US/Hawaii", "US/Indiana-Starke", "US/Michigan",
  "US/Mountain", "US/Pacific", "US/Samoa", "UTC",
  "Universal", "W-SU", "WET", "Zulu"]

/-- Lower horizon of the modelled transition tables. -/
def sentinelLo : Int := -(10 ^ 15)

/-- Upper horizon of the modelled transition tables. -/
def sentinelHi : Int := 10 ^ 15

/-- One fixed-offset span of a zone's transition table: UTC instants in
`[startUtc, endUtc)` carry `offset` seconds east of UTC, the abbreviation
`abbr` exactly as chrono-tz's `%Z` formats it, and a DST component of `dst`
seconds. -/
structure Regime where
  startUtc : Int
  endUtc : Int
  offset : Int
  abbr : String
  dst : Int
deriving Repr, DecidableEq

/-- America/New_York spans, transitions transcribed from the IANA tz database
for 2024-2026 (second Sunday of March 07:00 UTC, first Sunday of November
06:00 UTC), end spans extended to the model horizon. -/
def nyRules : List Regime :=
  [⟨sentinelLo, 1710054000, -18000, "EST", 0⟩,
   ⟨1710054000, 1730613600, -14400, "EDT", 3600⟩,
   ⟨1730613600, 1741503600, -18000, "EST", 0⟩,
   ⟨1741503600, 1762063200, -14400, "EDT", 3600⟩,
   ⟨1762063200, 1772953200, -18000, "EST", 0⟩,
   ⟨1772953200, 1793512800, -14400, "EDT", 3600⟩,
   ⟨1793512800, sentinelHi, -18000, "EST", 0⟩]

/-- Europe/Belgrade spans, transitions transcribed from the IANA tz database
for 2024-2026 (last Sundays of March and October, 01:00 UTC). -/
def belgradeRules : List Regime :=
  [⟨sentinelLo, 1711846800, 3600, "CET", 0⟩,
   ⟨1711846800, 1729990800, 7200, "CEST", 3600⟩,
   ⟨1729990800, 1743296400, 3600, "CET", 0⟩,
   ⟨1743296400, 1761440400, 7200, "CEST", 3600⟩,
   ⟨1761440400, 1774746000, 3600, "CET", 0⟩,
   ⟨1774746000, 1792890000, 7200, "CEST", 3600⟩,
   ⟨1792890000, sentinelHi, 3600, "CET", 0⟩]

/-- Europe/London spans for 2024-2026 (same transition instants as the EU
rule, GMT/BST). -/
def londonRules : List Regime :=
  [⟨sentinelLo, 1711846800, 0, "GMT", 0⟩,
   ⟨1711846800, 1729990800, 3600, "BST", 3600⟩,
   ⟨1729990800, 1743296400, 0, "GMT", 0⟩,
   ⟨1743296400, 1761440400, 3600, "BST", 3600⟩,
   ⟨1761440400, 1774746000, 0, "GMT", 0⟩,
   ⟨1774746000, 1792890000, 3600, "BST", 3600⟩,
   ⟨1792890000, sentinelHi, 0, "GMT", 0⟩]

/-- Europe/Istanbul: fixed +03 since 2016; the tz database supplies only the
numeric pseudo-abbreviation `+03` for it. -/
def istanbulRules : List Regime := [⟨sentinelLo, sentinelHi, 10800, "+03", 0⟩]

/-- The UTC table. -/
def utcRules : List Regime := [⟨sentinelLo, sentinelHi, 0, "UTC", 0⟩]

/-- Rules of the zones this development evaluates concretely; every other
catalog zone carries the fixed UTC placeholder table - no theorem below
depends on the rules of those zones, only on their catalog membership. -/
def tzRules (name : String) : List Regime :=
  if name = "America/New_York" then nyRules
  else if name = "Europe/Belgrade" then belgradeRules
  else if name = "Europe/London" then londonRules
  else if name = "Europe/Istanbul" then istanbulRules
  else utcRules

/-- A parsed `chrono_tz::Tz`: a catalog name together with its rules. -/
structure Tz where
  name : String
  rules : List Regime
deriving Repr, DecidableEq

/-- `str::parse::<Tz>()`: exact, case-sensitive catalog lookup, no partial or
fuzzy matching. -/
def tzParse (s : String) : Option Tz :=
  if tzCatalog.contains s then some ⟨s, tzRules s⟩ else none

/-- The `chrono_tz::UTC` constant used by the timestamp path. -/
def utcTz : Tz := ⟨"UTC", utcRules⟩

/-- The span of `rules` containing the UTC instant `t` (chrono-tz's by-instant
offset lookup; total for any instant between the sentinels). -/
def regimeAtUtc (rules : List Regime) (t : Int) : Regime :=
  match rules.find? (fun r => decide (r.startUtc ≤ t) && decide (t < r.endUtc)) with
  | some r => r
  | none => ⟨sentinelLo, sentinelHi, 0, "UTC", 0⟩

/-- The spans whose local window contains the naive local datetime `l`, i.e.
the candidate instants of chrono-tz's `offset_from_local_datetime`. -/
def localCandidates (rules : List Regime) (l : Int) : List Regime :=
  rules.filter (fun r => decide (r.startUtc ≤ l - r.offset) && decide (l - r.offset < r.endUtc))

/-- `from_local_datetime(..).single()`: `some` exactly for `LocalResult::Single`;
a gap (no candidate) and a fall-back overlap (two candidates) both give `none`. -/
def fromLocalSingle (rules : List Regime) (l : Int) : Option Regime :=
  match localCandidates rules l with
  | [r] => some r
  | _ => none

/-- Smallest epoch second representable by a chrono `DateTime`
(-262143-01-01T00:00:00). -/
def tsMin : Int := -8334601228800

/-- Largest epoch second representable by a chrono `DateTime`
(262142-12-31T23:59:59). -/
def tsMax : Int := 8210266876799

/-- `DateTime::from_timestamp(ts, 0)`: the instant itself, when representable. -/
def fromTimestamp (ts : Int) : Option Int :=
  if tsMin ≤ ts ∧ ts ≤ tsMax then some ts else none

/-- Two-digit zero padding. -/
def pad2 (n : Nat) : String := if n < 10 then "0" ++ toString n else toString n

/-- Four-digit zero padding. -/
def pad4 (n : Nat) : String :=
  if n < 10 then "000" ++ toString n
  else if n < 100 then "00" ++ toString n
  else if n < 1000 then "0" ++ toString n
  else toString n

/-- chrono `%z`: a sign and four digits, the offset in hours and minutes. -/
def percentZ (offset : Int) : String :=
  (if offset < 0 then "-" else "+") ++ pad2 (offset.natAbs / 3600)
    ++ pad2 (offset.natAbs % 3600 / 60)

/-- The `UTC±HH:MM` reconstruction of `build_convert_info`: slice the `%z`
string back apart and reassemble it, with the source's length-guard fallback. -/
def utcOffsetString (offset : Int) : String :=
  let offsetStr := percentZ offset
  if offsetStr.length ≥ 5 then
    "UTC" ++ offsetStr.take 1 ++ ((offsetStr.drop 1).take 2) ++ ":"
      ++ ((offsetStr.drop 3).take 2)
  else "UTC+00:00"

/-- Rust `str::starts_with(char)`. -/
def strStartsWithChar (s : String) (c : Char) : Bool :=
  match s.data with
  | [] => false
  | x :: _ => x = c

/-- `format_abbreviation`: keep the `%Z` string unless chrono-tz could only
supply a bare numeric offset, in which case substitute the unavailable marker. -/
def format_abbreviation (abbr : String) : String :=
  if strStartsWithChar abbr '+' || strStartsWithChar abbr '-' then "N/A" else abbr

/-- Inverse of `daysFromCivil`: year, month, day of a day count from
1970-01-01 (proleptic Gregorian). -/
def civilFromDays (z0 : Int) : Int × Int × Int :=
  let z := z0 + 719468
  let era := Int.fdiv z 146097
  let doe := z - era * 146097
  let yoe := Int.fdiv (doe - Int.fdiv doe 1460 + Int.fdiv doe 36524 - Int.fdiv doe 146096) 365
  let y := yoe + era * 400
  let doy := doe - (365 * yoe + Int.fdiv yoe 4 - Int.fdiv yoe 100)
  let mp := Int.fdiv (5 * doy + 2) 153
  let d := doy - Int.fdiv (153 * mp + 2) 5 + 1
  let m := if mp < 10 then mp + 3 else mp - 9
  (if m ≤ 2 then y + 1 else y, m, d)

/-- Decimal year, zero padded to four digits, sign for negative years. -/
def yearString (y : Int) : String :=
  if y < 0 then "-" ++ pad4 y.natAbs else pad4 y.natAbs

/-- `DateTime::to_rfc3339` of the instant `utc` rendered at fixed `offset`
seconds east of UTC (always a numeric suffix, `+00:00` for UTC). -/
def rfc3339 (utc offset : Int) : String :=
  let l := utc + offset
  let days := Int.fdiv l 86400
  let sod := (l - days * 86400).toNat
  let ymd := civilFromDays days
  yearString ymd.1 ++ "-" ++ pad2 ymd.2.1.natAbs ++ "-" ++ pad2 ymd.2.2.natAbs ++ "T"
    ++ pad2 (sod / 3600) ++ ":" ++ pad2 (sod % 3600 / 60) ++ ":" ++ pad2 (sod % 60)
    ++ (if offset < 0 then "-" else "+")
    ++ pad2 (offset.natAbs / 3600) ++ ":" ++ pad2 (offset.natAbs % 3600 / 60)

/-- `models.rs` `ConvertRequest`. -/
structure ConvertRequest where
  timestamp : Option Int
  datetime : Option String
  «from» : Option String
  «to» : String
deriving Repr, DecidableEq

/-- `models.rs` `ConvertTimezoneInfo`, one side of a conversion. -/
structure ConvertTimezoneInfo where
  timezone : String
  datetime : String
  utc_offset : String
  abbreviation : String
  is_dst : Bool
  timestamp : Int
deriving Repr, DecidableEq

/-- `models.rs` `ConvertResponse`. -/
structure ConvertResponse where
  «from» : ConvertTimezoneInfo
  «to» : ConvertTimezoneInfo
deriving Repr, DecidableEq

/-- `models.rs` `TimezoneListItem`. -/
structure TimezoneListItem where
  name : String
  display_name : String
deriving Repr, DecidableEq

/-- `is_daylight_saving_time`: the DST component of the zone's offset at the
instant is non-zero. -/
def is_daylight_saving_time (tz : Tz) (utc : Int) : Bool :=
  (regimeAtUtc tz.rules utc).dst != 0

/-- `build_convert_info`: render one side of the conversion - local RFC 3339
datetime, `UTC±HH:MM` offset, guarded abbreviation, DST flag, and the
instant's epoch value. -/
def build_convert_info (utc : Int) (tz : Tz) : ConvertTimezoneInfo :=
  let r := regimeAtUtc tz.rules utc
  ⟨tz.name, rfc3339 utc r.offset, utcOffsetString r.offset,
    format_abbreviation r.abbr, is_daylight_saving_time tz utc, utc⟩

/-- The instant-derivation match of `convert_timezone`: the
`(timestamp, datetime, from)` triple determines the UTC instant and the
source zone, in the source's arm order. -/
def derive_instant (request : ConvertRequest) : Except String (Int × Tz) :=
  match request.timestamp, request.datetime, request.«from» with
  | some _, some _, _ => .error "Provide either 'timestamp' or 'datetime'+'from', not both"
  | some _, none, some _ => .error "Provide either 'timestamp' or 'datetime'+'from', not both"
  | some ts, none, none =>
    match fromTimestamp ts with
    | none => .error ("Invalid timestamp: " ++ toString ts)
    | some utc => .ok (utc, utcTz)
  | none, some dtStr, some fromStr =>
    match tzParse fromStr with
    | none => .error ("Invalid source timezone: " ++ fromStr)
    | some fromTz =>
      match parseDatetimeChain dtStr with
      | .error e => .error ("Invalid datetime '" ++ dtStr ++ "': " ++ pErrMsg e)
      | .ok naive =>
        match fromLocalSingle fromTz.rules naive with
        | none => .error ("Ambiguous or invalid local time '" ++ dtStr ++ "' in " ++ fromStr)
        | some r => .ok (naive - r.offset, fromTz)
  | none, none, _ => .error "Either 'timestamp' or 'datetime'+'from' is required"
  | none, some _, none => .error "'from' timezone is required when using 'datetime'"

/-- `convert_timezone` (`service.rs`): parse the target zone, derive the
instant and source zone, then render the same instant on both sides. -/
def convert_timezone (request : ConvertRequest) : Except String ConvertResponse :=
  match tzParse request.«to» with
  | none => .error ("Invalid target timezone: " ++ request.«to»)
  | some toTz =>
    match derive_instant request with
    | .error e => .error e
    | .ok (utcInstant, fromTz) =>
      .ok ⟨build_convert_info utcInstant fromTz, build_convert_info utcInstant toTz⟩

/-- `is_valid_timezone`: `parse::<Tz>().is_ok()`. -/
def is_valid_timezone (timezoneName : String) : Bool :=
  (tzParse timezoneName).isSome

/-- `name.replace('_', " ")` of `get_all_timezones`, as a character map. -/
def replaceUnderscores (s : String) : String :=
  ⟨s.data.map (fun c => if c = '_' then ' ' else c)⟩

/-- `get_all_timezones`: every catalog entry, display name derived by
underscore replacement. -/
def get_all_timezones : List TimezoneListItem :=
  tzCatalog.map (fun n => ⟨n, replaceUnderscores n⟩)

/-- Whether a conversion result is a success (for closed witness statements). -/
def convertIsOk : Except String ConvertResponse → Bool
  | .ok _ => true
  | .error _ => false

/-- The source-side zone name of a successful conversion. -/
def convertFromZone : Except String ConvertResponse → Option String
  | .ok r => some r.«from».timezone
  | .error _ => none

/-- The source-side timestamp of a successful conversion. -/
def convertFromTimestamp : Except String ConvertResponse → Option Int
  | .ok r => some r.«from».timestamp
  | .error _ => none

/-- The target-side timestamp of a successful conversion. -/
def convertToTimestamp : Except String ConvertResponse → Option Int
  | .ok r => some r.«to».timestamp
  | .error _ => none


/-- Two strings with distinct first characters differ. -/
theorem string_ne_of_head (a b : String) (x y : Char) (ha : a.data.head? = some x)
    (hb : b.data.head? = some y) (hxy : x ≠ y) : a ≠ b := by
  intro h
  rw [h, hb] at ha
  exact hxy (Option.some.inj ha).symm

/-- Two strings with distinct second characters differ. -/
theorem string_ne_of_second (a b : String) (x y : Char) (ha : a.data.tail.head? = some x)
    (hb : b.data.tail.head? = some y) (hxy : x ≠ y) : a ≠ b := by
  intro h
  rw [h, hb] at ha
  exact hxy (Option.some.inj ha).symm

/-- A valid zone name parses to itself with its rule table. -/
theorem tzParse_of_valid {s : String} (h : is_valid_timezone s = true) :
    tzParse s = some ⟨s, tzRules s⟩ := by
  unfold is_valid_timezone at h
  unfold tzParse at h ⊢
  by_cases hc : tzCatalog.contains s = true
  · rw [if_pos hc]
  · rw [if_neg hc] at h
    simp at h

/-- Projection of the rendered abbreviation out of `build_convert_info`. -/
theorem build_convert_info_abbreviation (utc : Int) (tz : Tz) :
    (build_convert_info utc tz).abbreviation
      = format_abbreviation (regimeAtUtc tz.rules utc).abbr := rfl

/-- C7: zone validation succeeds exactly on exact, case-sensitive matches of
catalog entries - no partial or fuzzy matching - and on the stated probes:
`UTC`, `America/New_York`, `Europe/London` validate; `Invalid/Zone` fails,
as do a case variant and a bare prefix of a catalog entry. -/
theorem C7_zone_validation_exact_match :
    (∀ s : String, is_valid_timezone s = true ↔ s ∈ tzCatalog) ∧
    is_valid_timezone "UTC" = true ∧
    is_valid_timezone "America/New_York" = true ∧
    is_valid_timezone "Europe/London" = true ∧
    is_valid_timezone "Invalid/Zone" = false ∧
    is_valid_timezone "america/new_york" = false ∧
    is_valid_timezone "America" = false := by
  refine ⟨fun s => ?_, by decide, by decide, by decide, by decide, by decide, by decide⟩
  unfold is_valid_timezone tzParse
  by_cases hc : tzCatalog.contains s = true
  · rw [if_pos hc]
    exact iff_of_true rfl (List.mem_of_elem_eq_true hc)
  · rw [if_neg hc]
    exact iff_of_false (by simp) (fun hmem => hc (List.elem_eq_true_of_mem hmem))

/-- C7 witness: the membership characterisation instantiated at `UTC`. -/
theorem C7_zone_validation_exact_match_witness :
    is_valid_timezone "UTC" = true ↔ "UTC" ∈ tzCatalog :=
  C7_zone_validation_exact_match.1 "UTC"

/-- C8: every entry of the zone list derives its display name from its
identifier by replacing every underscore with a space; the list is non-empty,
has more than 500 entries, and contains the `America/New_York` entry with
display name `America/New York`. -/
theorem C8_list_zones :
    (∀ item ∈ get_all_timezones, item.display_name = replaceUnderscores item.name) ∧
    get_all_timezones ≠ [] ∧
    500 < get_all_timezones.length ∧
    (⟨"America/New_York", "America/New York"⟩ : TimezoneListItem) ∈ get_all_timezones := by
  refine ⟨?_, by decide, by decide, List.mem_map.mpr ⟨"America/New_York", by decide, by rfl⟩⟩
  intro item hmem
  have h2 := (List.mem_map).mp hmem
  obtain ⟨n, _, rfl⟩ := h2
  rfl

/-- C8 witness: the `America/New_York` entry instantiates the display-name
invariant. -/
theorem C8_list_zones_witness :
    (⟨"America/New_York", "America/New York"⟩ : TimezoneListItem).display_name
      = replaceUnderscores (⟨"America/New_York", "America/New York"⟩ : TimezoneListItem).name :=
  C8_list_zones.1 ⟨"America/New_York", "America/New York"⟩
    (List.mem_map.mpr ⟨"America/New_York", by decide, by rfl⟩)

/-- C9: when the catalog supplies only a bare numeric offset as a zone's
abbreviation (the `%Z` string begins with '+' or '-'), the rendered
abbreviation field is the explicit unavailable marker `N/A`; consequently the
abbreviation field never begins with '+' or '-'. -/
theorem C9_abbreviation_never_numeric (utc : Int) (tz : Tz) :
    ((strStartsWithChar (regimeAtUtc tz.rules utc).abbr '+'
        || strStartsWithChar (regimeAtUtc tz.rules utc).abbr '-') = true →
      (build_convert_info utc tz).abbreviation = "N/A") ∧
    strStartsWithChar (build_convert_info utc tz).abbreviation '+' = false ∧
    strStartsWithChar (build_convert_info utc tz).abbreviation '-' = false := by
  rw [build_convert_info_abbreviation]
  unfold format_abbreviation
  by_cases h : (strStartsWithChar (regimeAtUtc tz.rules utc).abbr '+'
      || strStartsWithChar (regimeAtUtc tz.rules utc).abbr '-') = true
  · rw [if_pos h]
    exact ⟨fun _ => rfl, rfl, rfl⟩
  · rw [if_neg h]
    have h2 := h
    rw [Bool.or_eq_true] at h2
    push_neg at h2
    exact ⟨fun hc => absurd hc h, Bool.eq_false_iff.mpr h2.1, Bool.eq_false_iff.mpr h2.2⟩

/-- C9 witness: Europe/Istanbul carries only the numeric pseudo-abbreviation
`+03`, and its rendered abbreviation is the unavailable marker. -/
theorem C9_abbreviation_never_numeric_witness :
    (build_convert_info 0 ⟨"Europe/Istanbul", istanbulRules⟩).abbreviation = "N/A" :=
  (C9_abbreviation_never_numeric 0 ⟨"Europe/Istanbul", istanbulRules⟩).1 (by decide)


/-- C3 counterexample: a query supplying both a timestamp and a datetime but an
invalid target zone is rejected with the invalid-target-zone error, not the
conflicting-instant error - target-zone parsing precedes the conflict check. -/
theorem C3_counterexample :
    is_valid_timezone "Invalid/Zone" = false ∧
    convert_timezone ⟨some 0, some "2025-01-01T00:00:00", some "UTC", "Invalid/Zone"⟩
      = .error "Invalid target timezone: Invalid/Zone" := ⟨by decide, by rfl⟩

/-- C3 (amended): provided the target zone is valid, a query supplying both a
timestamp and a datetime is rejected with the conflicting-instant error before
any parsing of the datetime or the source zone, whatever their content; an
invalid target zone takes precedence with its own error. -/
theorem C3_conflict_when_target_valid (q : ConvertRequest)
    (hto : is_valid_timezone q.«to» = true)
    (hts : q.timestamp.isSome = true) (hdt : q.datetime.isSome = true) :
    convert_timezone q
      = .error "Provide either 'timestamp' or 'datetime'+'from', not both" := by
  obtain ⟨ots, odt, ofr, tos⟩ := q
  have h := tzParse_of_valid hto
  cases ots with
  | none => simp at hts
  | some ts =>
    cases odt with
    | none => simp at hdt
    | some dt =>
      cases ofr with
      | none => simp [convert_timezone, derive_instant, h]
      | some f => simp [convert_timezone, derive_instant, h]

/-- C3 witness: conflict error on a valid target with junk datetime and junk
source zone. -/
theorem C3_conflict_when_target_valid_witness :
    convert_timezone ⟨some 1, some "junk", some "junk", "UTC"⟩
      = .error "Provide either 'timestamp' or 'datetime'+'from', not both" :=
  C3_conflict_when_target_valid ⟨some 1, some "junk", some "junk", "UTC"⟩
    (by decide) (by decide) (by decide)

/-- C10: a query supplying a timestamp together with a source zone (and no
datetime) is rejected with the same conflicting-instant error as supplying
timestamp plus datetime, given a valid target zone; and whenever a query
carrying a timestamp succeeds, its datetime and source-zone fields were both
absent. -/
theorem C10_timestamp_path_requires_absent_fields (q : ConvertRequest) (t : Int)
    (hts : q.timestamp = some t) :
    (is_valid_timezone q.«to» = true → (q.datetime.isSome || q.«from».isSome) = true →
      convert_timezone q = .error "Provide either 'timestamp' or 'datetime'+'from', not both") ∧
    (∀ r, convert_timezone q = .ok r → q.datetime = none ∧ q.«from» = none) := by
  obtain ⟨ots, odt, ofr, tos⟩ := q
  simp only at hts
  subst hts
  cases odt with
  | some dt =>
    constructor
    · intro hto _
      have h := tzParse_of_valid hto
      cases ofr <;> simp [convert_timezone, derive_instant, h]
    · intro r hr
      cases htz : tzParse tos <;> cases ofr <;>
        simp [convert_timezone, derive_instant, htz] at hr
  | none =>
    cases ofr with
    | some f =>
      constructor
      · intro hto _
        have h := tzParse_of_valid hto
        simp [convert_timezone, derive_instant, h]
      · intro r hr
        cases htz : tzParse tos <;>
          simp [convert_timezone, derive_instant, htz] at hr
    | none =>
      constructor
      · intro _ hor
        simp at hor
      · intro r _
        exact ⟨rfl, rfl⟩

/-- C10 witness: timestamp plus source zone, valid target, yields the conflict
error. -/
theorem C10_timestamp_path_requires_absent_fields_witness :
    convert_timezone ⟨some 5, none, some "UTC", "UTC"⟩
      = .error "Provide either 'timestamp' or 'datetime'+'from', not both" :=
  (C10_timestamp_path_requires_absent_fields ⟨some 5, none, some "UTC", "UTC"⟩ 5 rfl).1
    (by decide) (by decide)

/-- C6: with a valid target zone, the structural validation failures are
distinguished: supplying neither timestamp nor datetime yields the
missing-instant error; a datetime without a source zone yields the
missing-source-zone error; a datetime with a source-zone string outside the
catalog yields the invalid-source-zone error; and the missing-source-zone
message differs from every invalid-source-zone message. -/
theorem C6_structural_validation_errors (q : ConvertRequest)
    (hto : is_valid_timezone q.«to» = true) (hts : q.timestamp = none) :
    (q.datetime = none →
      convert_timezone q = .error "Either 'timestamp' or 'datetime'+'from' is required") ∧
    (∀ d, q.datetime = some d → q.«from» = none →
      convert_timezone q = .error "'from' timezone is required when using 'datetime'") ∧
    (∀ d f, q.datetime = some d → q.«from» = some f → is_valid_timezone f = false →
      convert_timezone q = .error ("Invalid source timezone: " ++ f)) ∧
    (∀ f : String,
      ("'from' timezone is required when using 'datetime'" : String)
        ≠ "Invalid source timezone: " ++ f) := by
  obtain ⟨ots, odt, ofr, tos⟩ := q
  simp only at hts hto
  subst hts
  have h := tzParse_of_valid hto
  refine ⟨?_, ?_, ?_, ?_⟩
  · intro hdt
    simp only at hdt
    subst hdt
    cases ofr <;> simp [convert_timezone, derive_instant, h]
  · intro d hdt hfr
    simp only at hdt hfr
    subst hdt
    subst hfr
    simp [convert_timezone, derive_instant, h]
  · intro d f hdt hfr hf
    simp only at hdt hfr
    subst hdt
    subst hfr
    have hpf : tzParse f = none := by
      unfold is_valid_timezone at hf
      cases hc : tzParse f with
      | none => rfl
      | some x => rw [hc] at hf; simp at hf
    simp [convert_timezone, derive_instant, h, hpf]
  · intro f
    exact string_ne_of_second _ _ 'f' 'n' rfl rfl (by decide)

/-- C6 witness: the three structural errors at concrete queries. -/
theorem C6_structural_validation_errors_witness :
    convert_timezone ⟨none, none, none, "UTC"⟩
      = .error "Either 'timestamp' or 'datetime'+'from' is required" ∧
    convert_timezone ⟨none, some "2025-02-10T15:30:00", none, "America/New_York"⟩
      = .error "'from' timezone is required when using 'datetime'" ∧
    convert_timezone ⟨none, some "2025-02-10T15:30:00", some "Bad/Zone", "America/New_York"⟩
      = .error ("Invalid source timezone: " ++ "Bad/Zone") :=
  ⟨(C6_structural_validation_errors ⟨none, none, none, "UTC"⟩ (by decide) rfl).1 rfl,
   (C6_structural_validation_errors ⟨none, some "2025-02-10T15:30:00", none, "America/New_York"⟩
      (by decide) rfl).2.1 "2025-02-10T15:30:00" rfl rfl,
   (C6_structural_validation_errors
      ⟨none, some "2025-02-10T15:30:00", some "Bad/Zone", "America/New_York"⟩
      (by decide) rfl).2.2.1 "2025-02-10T15:30:00" "Bad/Zone" rfl rfl (by decide)⟩


/-- C2 counterexample: `i64::MAX` is a signed 64-bit epoch value and `UTC` a
valid target zone, yet the timestamp path fails: the value lies outside
chrono's representable instant range. -/
theorem C2_counterexample :
    is_valid_timezone "UTC" = true ∧
    convert_timezone ⟨some 9223372036854775807, none, none, "UTC"⟩
      = .error "Invalid timestamp: 9223372036854775807" := ⟨by decide, by rfl⟩

/-- C2 (amended): for every epoch timestamp inside chrono's representable
range `[tsMin, tsMax]`, the timestamp path with a valid target zone succeeds,
uses the supplied epoch value as the Instant directly, and renders the source
side in fixed UTC; outside that range it fails with the invalid-timestamp
error. -/
theorem C2_timestamp_path (ts : Int) (tos : String)
    (hto : is_valid_timezone tos = true) :
    (tsMin ≤ ts ∧ ts ≤ tsMax →
      convertIsOk (convert_timezone ⟨some ts, none, none, tos⟩) = true ∧
      convertFromZone (convert_timezone ⟨some ts, none, none, tos⟩) = some "UTC" ∧
      convertFromTimestamp (convert_timezone ⟨some ts, none, none, tos⟩) = some ts ∧
      convertToTimestamp (convert_timezone ⟨some ts, none, none, tos⟩) = some ts) ∧
    (¬ (tsMin ≤ ts ∧ ts ≤ tsMax) →
      convert_timezone ⟨some ts, none, none, tos⟩
        = .error ("Invalid timestamp: " ++ toString ts)) := by
  have h := tzParse_of_valid hto
  constructor
  · intro hr
    have hft : fromTimestamp ts = some ts := by
      unfold fromTimestamp
      exact if_pos hr
    simp [convert_timezone, derive_instant, h, hft, convertIsOk, convertFromZone,
      convertFromTimestamp, convertToTimestamp, build_convert_info, utcTz]
  · intro hr
    have hft : fromTimestamp ts = none := by
      unfold fromTimestamp
      exact if_neg hr
    simp [convert_timezone, derive_instant, h, hft]

/-- C2 witness: the repository's probe timestamp converts to America/New_York
with a UTC-rendered source side carrying the supplied epoch value. -/
theorem C2_timestamp_path_witness :
    convertIsOk (convert_timezone ⟨some 1707580800, none, none, "America/New_York"⟩) = true ∧
    convertFromZone (convert_timezone ⟨some 1707580800, none, none, "America/New_York"⟩)
      = some "UTC" ∧
    convertFromTimestamp (convert_timezone ⟨some 1707580800, none, none, "America/New_York"⟩)
      = some 1707580800 ∧
    convertToTimestamp (convert_timezone ⟨some 1707580800, none, none, "America/New_York"⟩)
      = some 1707580800 :=
  (C2_timestamp_path 1707580800 "America/New_York" (by decide)).1 ⟨by decide, by decide⟩

/-- C4: on the naive-datetime path, a wall-clock value falling in a
spring-forward gap (no candidate span) or a fall-back overlap (two candidate
spans) of the declared source zone makes conversion fail with the
ambiguous-or-invalid-local-time error; the engine never picks a candidate by
convention. -/
theorem C4_gap_or_overlap_rejected (d f tos : String) (n : Int)
    (hto : is_valid_timezone tos = true) (hf : is_valid_timezone f = true)
    (hparse : parseDatetimeChain d = .ok n)
    (hcand : (localCandidates (tzRules f) n).length = 0
      ∨ (localCandidates (tzRules f) n).length = 2) :
    convert_timezone ⟨none, some d, some f, tos⟩
      = .error ("Ambiguous or invalid local time '" ++ d ++ "' in " ++ f) := by
  have hto2 := tzParse_of_valid hto
  have hf2 := tzParse_of_valid hf
  have hsingle : fromLocalSingle (tzRules f) n = none := by
    unfold fromLocalSingle
    rcases hcand with h0 | h2
    · cases hl : localCandidates (tzRules f) n with
      | nil => rfl
      | cons a t => rw [hl] at h0; simp at h0
    · cases hl : localCandidates (tzRules f) n with
      | nil => rfl
      | cons a t =>
        cases t with
        | nil => rw [hl] at h2; simp at h2
        | cons b t2 =>
          cases t2 with
          | nil => rfl
          | cons c t3 => rfl
  simp [convert_timezone, derive_instant, hto2, hf2, hparse, hsingle]

/-- C4 witness: in America/New_York, 2025-03-09T02:30:00 falls in the
spring-forward gap and 2025-11-02T01:30:00 in the fall-back overlap; both are
rejected with the ambiguous-or-invalid error. -/
theorem C4_gap_or_overlap_rejected_witness :
    convert_timezone ⟨none, some "2025-03-09T02:30:00", some "America/New_York", "UTC"⟩
      = .error ("Ambiguous or invalid local time '" ++ "2025-03-09T02:30:00"
          ++ "' in " ++ "America/New_York") ∧
    convert_timezone ⟨none, some "2025-11-02T01:30:00", some "America/New_York", "UTC"⟩
      = .error ("Ambiguous or invalid local time '" ++ "2025-11-02T01:30:00"
          ++ "' in " ++ "America/New_York") :=
  ⟨C4_gap_or_overlap_rejected "2025-03-09T02:30:00" "America/New_York" "UTC" 1741487400
      (by decide) (by decide) (by rfl) (Or.inl (by rfl)),
   C4_gap_or_overlap_rejected "2025-11-02T01:30:00" "America/New_York" "UTC" 1762047000
      (by decide) (by decide) (by rfl) (Or.inr (by rfl))⟩


/-- C1: whenever `convert_timezone` succeeds, the two rendered sides carry an
identical timestamp field, that value is the derived Instant's epoch value,
and on the timestamp path it is the supplied epoch value itself. -/
theorem C1_shared_timestamp (q : ConvertRequest) (r : ConvertResponse)
    (h : convert_timezone q = .ok r) :
    r.«from».timestamp = r.«to».timestamp ∧
    (∃ i fz, derive_instant q = .ok (i, fz)
      ∧ r.«from».timestamp = i ∧ r.«to».timestamp = i) ∧
    (∀ ts, q.timestamp = some ts → r.«from».timestamp = ts) := by
  unfold convert_timezone at h
  cases htz : tzParse q.«to» with
  | none => rw [htz] at h; exact absurd h (by simp)
  | some toTz =>
    rw [htz] at h
    cases hd : derive_instant q with
    | error e => rw [hd] at h; exact absurd h (by simp)
    | ok p =>
      obtain ⟨i, fz⟩ := p
      rw [hd] at h
      have hr : (⟨build_convert_info i fz, build_convert_info i toTz⟩ : ConvertResponse) = r :=
        Except.ok.inj h
      subst hr
      refine ⟨rfl, ⟨i, fz, rfl, rfl, rfl⟩, ?_⟩
      intro ts hts
      obtain ⟨ots, odt, ofr, tos⟩ := q
      simp only at hts
      subst hts
      cases odt with
      | some dt => cases ofr <;> simp [derive_instant] at hd
      | none =>
        cases ofr with
        | some f2 => simp [derive_instant] at hd
        | none =>
          simp only [derive_instant] at hd
          unfold fromTimestamp at hd
          by_cases hc : tsMin ≤ ts ∧ ts ≤ tsMax
          · rw [if_pos hc] at hd
            have h2 : ((ts, utcTz) : Int × Tz) = (i, fz) := Except.ok.inj hd
            exact (congrArg Prod.fst h2).symm
          · rw [if_neg hc] at hd
            cases hd

/-- C1 witness: the repository's probe conversion, with its fully rendered
response. -/
theorem C1_shared_timestamp_witness :
    ((⟨⟨"UTC", "2024-02-10T16:00:00+00:00", "UTC+00:00", "UTC", false, 1707580800⟩,
       ⟨"America/New_York", "2024-02-10T11:00:00-05:00", "UTC-05:00", "EST", false,
         1707580800⟩⟩ : ConvertResponse)).«from».timestamp
      = ((⟨⟨"UTC", "2024-02-10T16:00:00+00:00", "UTC+00:00", "UTC", false, 1707580800⟩,
          ⟨"America/New_York", "2024-02-10T11:00:00-05:00", "UTC-05:00", "EST", false,
            1707580800⟩⟩ : ConvertResponse)).«to».timestamp :=
  (C1_shared_timestamp ⟨some 1707580800, none, none, "America/New_York"⟩
    ⟨⟨"UTC", "2024-02-10T16:00:00+00:00", "UTC+00:00", "UTC", false, 1707580800⟩,
     ⟨"America/New_York", "2024-02-10T11:00:00-05:00", "UTC-05:00", "EST", false,
       1707580800⟩⟩ (by rfl)).1

/-- Modelled from the spec: the surface form `YYYY-MM-DDTHH:MM:SS` - exactly
four digits, dash, two digits, dash, two digits, `T`, two digits, colon, two
digits, colon, two digits. Used only to compare the spec's stated grammar
with the parser the code calls. -/
def specFormSec (s : String) : Bool :=
  match s.data with
  | [y1, y2, y3, y4, '-', m1, m2, '-', d1, d2, 'T', h1, h2, ':', i1, i2, ':', s1, s2] =>
    [y1, y2, y3, y4, m1, m2, d1, d2, h1, h2, i1, i2, s1, s2].all Char.isDigit
  | _ => false

/-- Modelled from the spec: the surface form `YYYY-MM-DDTHH:MM`. -/
def specFormMin (s : String) : Bool :=
  match s.data with
  | [y1, y2, y3, y4, '-', m1, m2, '-', d1, d2, 'T', h1, h2, ':', i1, i2] =>
    [y1, y2, y3, y4, m1, m2, d1, d2, h1, h2, i1, i2].all Char.isDigit
  | _ => false

/-- C5 counterexample: `2025-2-10T15:30` matches neither stated surface form,
yet the naive-datetime path accepts it (chrono parses unpadded fields). -/
theorem C5_counterexample :
    specFormSec "2025-2-10T15:30" = false ∧
    specFormMin "2025-2-10T15:30" = false ∧
    convertIsOk (convert_timezone ⟨none, some "2025-2-10T15:30", some "UTC", "UTC"⟩)
      = true :=
  ⟨by decide, by decide, by rfl⟩

/-- C5 (amended): the datetime strings the naive-datetime path accepts are
exactly those accepted by chrono's two-format parse chain - the two stated
padded forms are among them, with seconds defaulting to zero in the shorter
form, but lenient variants (unpadded fields, signed years, interior
whitespace) are accepted as well; with valid zones, conversion yields the
malformed-datetime error precisely on the strings the chain rejects. -/
theorem C5_malformed_exactly_on_parse_failure (d f tos : String)
    (hto : is_valid_timezone tos = true) (hf : is_valid_timezone f = true) :
    (∀ e, parseDatetimeChain d = .error e →
      convert_timezone ⟨none, some d, some f, tos⟩
        = .error ("Invalid datetime '" ++ d ++ "': " ++ pErrMsg e)) ∧
    (∀ n e, parseDatetimeChain d = .ok n →
      convert_timezone ⟨none, some d, some f, tos⟩
        ≠ .error ("Invalid datetime '" ++ d ++ "': " ++ pErrMsg e)) ∧
    parseDatetimeChain "2025-02-10T15:30:00" = .ok 1739201400 ∧
    parseDatetimeChain "2025-02-10T15:30" = .ok 1739201400 := by
  have hto2 := tzParse_of_valid hto
  have hf2 := tzParse_of_valid hf
  refine ⟨?_, ?_, by rfl, by rfl⟩
  · intro e hp
    simp [convert_timezone, derive_instant, hto2, hf2, hp]
  · intro n e hp
    cases hs : fromLocalSingle (tzRules f) n with
    | some rg =>
      simp [convert_timezone, derive_instant, hto2, hf2, hp, hs]
    | none =>
      simp only [convert_timezone, derive_instant, hto2, hf2, hp, hs]
      intro hbad
      have h2 := Except.error.inj hbad
      exact absurd h2 (string_ne_of_head _ _ 'A' 'I' rfl rfl (by decide))

/-- C5 witness: an unparseable string is rejected with the malformed-datetime
error carrying chrono's invalid-characters description. -/
theorem C5_malformed_exactly_on_parse_failure_witness :
    convert_timezone ⟨none, some "nonsense", some "UTC", "UTC"⟩
      = .error ("Invalid datetime '" ++ "nonsense" ++ "': " ++ pErrMsg PErr.invalid) :=
  (C5_malformed_exactly_on_parse_failure "nonsense" "UTC" "UTC" (by decide) (by decide)).1
    PErr.invalid (by rfl)

end EpochZone
